import Mathlib

/-!
Shallow embedding of the Banjaara 2025 entry/exit portal service layer
(src/services/firebase.ts), of its CSV upload handler and of the login
form, together with proofs about checkpoint advancement, CSV import,
walk-in identifier generation and error reporting.

Firestore documents are modelled as association lists keyed by document id;
the remote calls of the service layer become pure state transformers on a
Store value holding the three collections the code touches.
-/

namespace Banjaara

/-- User roles, from types.ts (UserRole). -/
inductive UserRole where
  | admin
  | volunteer
  deriving DecidableEq, Repr

/-- Categories of external participants, from types.ts (ExternalType). -/
inductive ExternalType where
  | participant
  | attendeeDay1
  | attendeeDay2
  | attendeeBothDays
  | onTheSpot
  deriving DecidableEq, Repr

/-- Checkpoint actions, from types.ts (ActionType). -/
inductive ActionType where
  | gateIn
  | checkIn
  | checkOut
  | gateOut
  | payment
  deriving DecidableEq, Repr

/-- Participant status labels, from types.ts (the External.status union). -/
inductive Status where
  | notArrived
  | gatedIn
  | checkedIn
  | checkedOut
  | gateOut
  deriving DecidableEq, Repr

/-- Authenticated volunteer or admin profile, from types.ts (User). -/
structure User where
  uid : String
  email : String
  role : UserRole
  name : String
  deriving DecidableEq, Repr

/-- Participant record, from types.ts (External). Dates are modelled as
natural-number timestamps; the optional lastEntry/lastExit fields are never
written by the service layer and are omitted. -/
structure External where
  bid : String
  name : String
  email : String
  phone : String
  college : String
  paymentStatus : String
  type : ExternalType
  registrationDate : Nat
  gateIn : Bool
  gateOut : Bool
  checkIn : Bool
  checkOut : Bool
  insideCampus : Bool
  events : List String
  lastTime : String
  status : Status
  deriving DecidableEq, Repr

/-- Action log record, from types.ts (ActionLog); the auto-generated
document id is not part of the payload written by addDoc. -/
structure ActionLog where
  externalUid : String
  action : ActionType
  timestamp : Nat
  volunteerName : String
  deriving DecidableEq, Repr

/-- CSV row consumed by createExternal, from types.ts (CSVRow). -/
structure CSVRow where
  bid : String
  name : String
  email : String
  phone : String
  college : String
  type : ExternalType
  paymentStatus : String
  events : List String
  deriving DecidableEq, Repr

/-- The Firestore state the service layer touches: the externals collection
keyed by bid, the append-only actionLogs collection, and the usedBids array
of the usedBids/bids document. -/
structure Store where
  externals : List (String × External)
  actionLogs : List ActionLog
  usedBids : List String
  deriving DecidableEq, Repr

/-- Document lookup by key in a collection. -/
def findDoc {α : Type} : List (String × α) → String → Option α
  | [], _ => none
  | (k, v) :: rest, key => if k = key then some v else findDoc rest key

/-- setDoc without merge: overwrite the document at the key, creating it
when absent. -/
def setDocAt {α : Type} : List (String × α) → String → α → List (String × α)
  | [], key, v => [(key, v)]
  | (k, w) :: rest, key, v =>
      if k = key then (k, v) :: rest else (k, w) :: setDocAt rest key v

/-- Firestore arrayUnion on the usedBids array: appends the element unless
it is already present. -/
def arrayUnion (l : List String) (x : String) : List String :=
  if x ∈ l then l else l ++ [x]

/-- The sparse update document built by logAction (updateData); a none
field is not written. -/
structure ExternalUpdate where
  gateIn : Option Bool := none
  gateOut : Option Bool := none
  checkIn : Option Bool := none
  checkOut : Option Bool := none
  insideCampus : Option Bool := none
  paymentStatus : Option String := none
  deriving DecidableEq, Repr

/-- The if/else chain of logAction building updateData from the action
alone (firebase.ts lines 366 to 384). -/
def updateDataFor : ActionType → ExternalUpdate
  | .gateIn => { gateIn := some true }
  | .checkIn => { checkIn := some true, insideCampus := some true }
  | .checkOut => { checkOut := some true }
  | .gateOut =>
      { gateOut := some false, checkOut := some false,
        insideCampus := some false, gateIn := some false,
        checkIn := some false, paymentStatus := some "not paid" }
  | .payment => { paymentStatus := some "paid" }

/-- setDoc with merge on an existing document: each field present in the
update overwrites the stored field, every other field is kept. -/
def mergeUpdate (e : External) (u : ExternalUpdate) : External :=
  { e with
    gateIn := u.gateIn.getD e.gateIn
    gateOut := u.gateOut.getD e.gateOut
    checkIn := u.checkIn.getD e.checkIn
    checkOut := u.checkOut.getD e.checkOut
    insideCampus := u.insideCampus.getD e.insideCampus
    paymentStatus := u.paymentStatus.getD e.paymentStatus }

/-- setDoc with merge at a key. On an absent document Firestore would
create a sparse document holding just the written fields, a shape the typed
External cannot represent; every claim below is about an existing
participant record, so the absent case leaves the collection unchanged. -/
def setMergeAt : List (String × External) → String → ExternalUpdate →
    List (String × External)
  | [], _, _ => []
  | (k, e) :: rest, key, u =>
      if k = key then (k, mergeUpdate e u) :: rest
      else (k, e) :: setMergeAt rest key u

/-- logAction (firebase.ts lines 350 to 391): appends one action-log
document, then merges the action-determined updateData into the
participant document. -/
def logAction (s : Store) (externalUid : String) (action : ActionType)
    (volunteer : User) (now : Nat) : Store :=
  let actionLog : ActionLog :=
    { externalUid := externalUid, action := action, timestamp := now,
      volunteerName := volunteer.name }
  { s with
    actionLogs := s.actionLogs ++ [actionLog],
    externals := setMergeAt s.externals externalUid (updateDataFor action) }

/-- Number of action-log entries recorded for one participant. -/
def logsFor (s : Store) (uid : String) : Nat :=
  (s.actionLogs.filter (fun l => l.externalUid = uid)).length

/-- The checkpoint flag of the participant record that corresponds to an
advance action (spec section 3 order: gate-in, check-in, check-out,
gate-out). -/
def advanceFlag (a : ActionType) (e : External) : Bool :=
  match a with
  | .gateIn => e.gateIn
  | .checkIn => e.checkIn
  | .checkOut => e.checkOut
  | .gateOut => e.gateOut
  | .payment => e.insideCampus

/-- The checkpoint flag preceding an action in the intended order is not
set; gate-in has no predecessor. -/
def precedingFlagClear (a : ActionType) (e : External) : Prop :=
  match a with
  | .gateIn => True
  | .checkIn => e.gateIn = false
  | .checkOut => e.checkIn = false
  | .gateOut => e.checkOut = false
  | .payment => True

instance (a : ActionType) (e : External) :
    Decidable (precedingFlagClear a e) := by
  cases a <;> simp only [precedingFlagClear] <;> infer_instance

/-- The writes of the updateData for an action have landed in a record. -/
def advanceApplied (a : ActionType) (x : External) : Prop :=
  match a with
  | .gateIn => x.gateIn = true
  | .checkIn => x.checkIn = true ∧ x.insideCampus = true
  | .checkOut => x.checkOut = true
  | .gateOut =>
      x.gateIn = false ∧ x.gateOut = false ∧ x.checkIn = false ∧
      x.checkOut = false ∧ x.insideCampus = false ∧
      x.paymentStatus = "not paid"
  | .payment => x.paymentStatus = "paid"

/-- createExternal (firebase.ts lines 145 to 170): builds the External
document from the CSV row with every checkpoint flag cleared, writes it at
the row bid, then arrayUnions the bid into usedBids. -/
def createExternal (s : Store) (data : CSVRow) (now : Nat) : Store :=
  let bid := data.bid
  let external : External :=
    { bid := data.bid, name := data.name, email := data.email,
      phone := data.phone, college := data.college,
      paymentStatus := data.paymentStatus, type := data.type,
      events := data.events,
      registrationDate := now,
      gateIn := false, gateOut := false, checkIn := false,
      checkOut := false, insideCampus := false,
      status := .notArrived, lastTime := "" }
  { s with
    externals := setDocAt s.externals bid external,
    usedBids := arrayUnion s.usedBids bid }

/-- uploadCSVData (firebase.ts lines 196 to 207): iterates over every row,
tries createExternal on each, counts successes and swallows per-row
failures, continuing with the next row. Whether the backend accepts a
given row is abstracted by the oracle ok; a rejected createExternal leaves
the store unchanged. -/
def uploadCSVData (ok : CSVRow → Bool) (s : Store) (now : Nat) :
    List CSVRow → Store × Nat
  | [] => (s, 0)
  | row :: rest =>
      if ok row then
        let res := uploadCSVData ok (createExternal s row now) now rest
        (res.1, res.2 + 1)
      else
        uploadCSVData ok s now rest

/-- The bid character set (firebase.ts line 217). -/
def charset : String := "ABCDEFGHIJKLMNOPQRSTUVWXYZ23456789"

/-- charset indexing by a random draw (firebase.ts line 225); the index is
always below the 34-character length, so the default is never used. -/
def charAt (i : Fin 34) : Char := charset.toList.getD i.val 'A'

/-- The 4-character bid generated on loop iteration k from the stream r of
random draws: iteration k consumes draws 4k, 4k+1, 4k+2 and 4k+3
(firebase.ts lines 223 to 226). -/
def genBidAt (r : Nat → Fin 34) (k : Nat) : String :=
  String.mk ((List.range 4).map (fun j => charAt (r (4 * k + j))))

/-- The re-check-and-retry loop of generateUniqueBid (firebase.ts lines
221 to 236) under sequential execution: the usedBids document is re-read
unchanged on every iteration. The loop is given fuel; the source loops
without bound. -/
def generateUniqueBidLoop (used : List String) (r : Nat → Fin 34) :
    Nat → Nat → Option String
  | 0, _ => none
  | fuel + 1, k =>
      let bid := genBidAt r k
      if bid ∈ used then generateUniqueBidLoop used r fuel (k + 1)
      else some bid

/-- generateUniqueBid (firebase.ts lines 216 to 239). -/
def generateUniqueBid (used : List String) (r : Nat → Fin 34)
    (fuel : Nat) : Option String :=
  generateUniqueBidLoop used r fuel 0

/-- A well-formed bid: 4 characters, each drawn from the generator
charset. -/
def isCharsetBid (b : String) : Prop :=
  b.length = 4 ∧ ∀ c ∈ b.toList, c ∈ charset.toList

instance (b : String) : Decidable (isCharsetBid b) := by
  unfold isCharsetBid
  infer_instance

/-- Deterministic enumeration stream standing in for the random source:
iteration k proposes the base-34 encoding of k, so every 4-character
charset bid is eventually proposed. -/
def enumR (n : Nat) : Fin 34 :=
  ⟨n / 4 / 34 ^ (n % 4) % 34, Nat.mod_lt _ (by decide)⟩

/-- onSpotRegistration (firebase.ts lines 250 to 297): generates a fresh
bid, writes the new external document with every flag cleared, arrayUnions
the bid into usedBids, and returns the bid. The none result models the
unbounded retry loop not finding a free bid within the given fuel. -/
def onSpotRegistration (s : Store) (r : Nat → Fin 34) (fuel : Nat)
    (name email phone college : String) (now : Nat) :
    Option (Store × String) :=
  match generateUniqueBid s.usedBids r fuel with
  | none => none
  | some bid =>
      let external : External :=
        { bid := bid, name := name, email := email, phone := phone,
          college := college, type := .onTheSpot,
          paymentStatus := "not paid", registrationDate := now,
          gateIn := false, gateOut := false, checkIn := false,
          checkOut := false, insideCampus := false, events := [],
          status := .notArrived, lastTime := "" }
      some
        ({ s with
            externals := setDocAt s.externals bid external,
            usedBids := arrayUnion s.usedBids bid }, bid)

/-- Outcome of the Firebase Auth call inside signIn: success with a uid, a
backend error carrying a code property, or a plain Error without one. -/
inductive AuthResult where
  | success (uid : String)
  | codedError (code : String)
  | plainError (message : String)
  deriving DecidableEq, Repr

/-- Outcome of the Firestore profile fetch for a uid inside signIn. -/
inductive FetchResult where
  | found (u : User)
  | missing
  | codedError (code : String)
  | plainError (message : String)
  deriving DecidableEq, Repr

/-- An error escaping the try block of signIn: either a backend error with
a code property, or a plain Error, such as the profile-not-found throw. -/
inductive SignInError where
  | coded (code : String)
  | plain (message : String)
  deriving DecidableEq, Repr

/-- The try block of signIn (firebase.ts lines 66 to 84): authenticate,
fetch the profile, and throw a plain Error when the profile document does
not exist. -/
def signInTry (authRes : AuthResult) (fetch : String → FetchResult) :
    Except SignInError User :=
  match authRes with
  | .codedError c => .error (.coded c)
  | .plainError m => .error (.plain m)
  | .success uid =>
      match fetch uid with
      | .codedError c => .error (.coded c)
      | .plainError m => .error (.plain m)
      | .missing =>
          .error
            (.plain "User profile not found. Please contact an administrator.")
      | .found u => .ok u

/-- The catch block of signIn (firebase.ts lines 85 to 103): only errors
with a code property reach the switch; every other error, the
profile-not-found throw included, maps to the generic message. -/
def signInCatch : SignInError → String
  | .coded c =>
      if c = "auth/user-not-found" then "No user found with this email."
      else if c = "auth/wrong-password" then "Incorrect password."
      else if c = "auth/invalid-email" then "Invalid email address."
      else if c = "permission-denied" then
        "Access denied. Please contact an administrator."
      else "Login failed. Please try again."
  | .plain _ => "Login failed. Please try again."

/-- signIn (firebase.ts lines 62 to 104). -/
def signIn (authRes : AuthResult) (fetch : String → FetchResult) :
    Except String User :=
  match signInTry authRes fetch with
  | .ok u => .ok u
  | .error e => .error (signInCatch e)

/-- The five static messages signIn can raise. -/
def signInMessages : List String :=
  ["No user found with this email.", "Incorrect password.",
   "Invalid email address.",
   "Access denied. Please contact an administrator.",
   "Login failed. Please try again."]

/-- A parsed CSV row as produced by Papa.parse with headers: the key/value
pairs present in the row. An absent column does not appear at all. -/
structure RawCSVData where
  fields : List (String × String)
  deriving DecidableEq, Repr

/-- Property access row[key] on the parsed row object. -/
def RawCSVData.getField (row : RawCSVData) (key : String) : Option String :=
  findDoc row.fields key

/-- JavaScript (value or-else dflt) on an optional string field: an absent
value and an empty string both fall back to the default. -/
def orDefault (v : Option String) (dflt : String) : String :=
  match v with
  | none => dflt
  | some s => if s = "" then dflt else s

/-- The filter of handleUpload (CSVUpload line 45): keep a row exactly when
some value in it is non-empty. -/
def keepRow (row : RawCSVData) : Bool :=
  row.fields.any (fun kv => kv.2 ≠ "")

/-- The row shape built by handleUpload (CSVUpload lines 46 to 54). This
revision of the upload handler does not set a college field. -/
structure UploadRow where
  bid : String
  name : String
  email : String
  phone : String
  type : ExternalType
  paymentStatus : String
  events : List String
  deriving DecidableEq, Repr

/-- The per-row map of handleUpload (CSVUpload lines 46 to 54): missing or
empty cells fall back to empty strings, the payment status to the string
not paid, and the events cell is split on commas and trimmed. -/
def mapRow (selectedType : ExternalType) (row : RawCSVData) : UploadRow :=
  { bid := orDefault (row.getField "ID") "",
    name := orDefault (row.getField "Name") "",
    email := orDefault (row.getField "Email") "",
    phone := orDefault (row.getField "Mobile") "",
    type := selectedType,
    paymentStatus := orDefault (row.getField "Payment Status") "not paid",
    events :=
      ((orDefault (row.getField "Events") "").splitOn ",").map
        (fun s => s.trim) }

/-- The row pipeline of handleUpload (CSVUpload lines 44 to 54): drop rows
with no non-empty value, then map the survivors to upload rows. -/
def handleUploadRows (selectedType : ExternalType)
    (raws : List RawCSVData) : List UploadRow :=
  (raws.filter keepRow).map (mapRow selectedType)

/-- Sample volunteer used by the concrete evaluations below. -/
def sampleVolunteer : User :=
  { uid := "V1", email := "vol@fest", role := .volunteer, name := "Vol" }

/-- A participant who has gated in, checked in and checked out, paid, and
is about to gate out. -/
def sampleExternal : External :=
  { bid := "B1", name := "P One", email := "p1@fest", phone := "9",
    college := "AU", paymentStatus := "paid", type := .participant,
    registrationDate := 0, gateIn := true, gateOut := false,
    checkIn := true, checkOut := true, insideCampus := true,
    events := [], lastTime := "", status := .checkedOut }

/-- Store holding the checked-out sample participant. -/
def sampleStore : Store :=
  { externals := [("B1", sampleExternal)], actionLogs := [],
    usedBids := ["B1"] }

/-- A freshly imported participant with every flag cleared. -/
def freshExternal : External :=
  { bid := "B2", name := "P Two", email := "p2@fest", phone := "8",
    college := "AU", paymentStatus := "not paid", type := .participant,
    registrationDate := 0, gateIn := false, gateOut := false,
    checkIn := false, checkOut := false, insideCampus := false,
    events := [], lastTime := "", status := .notArrived }

/-- Store holding the fresh sample participant. -/
def freshStore : Store :=
  { externals := [("B2", freshExternal)], actionLogs := [],
    usedBids := ["B2"] }

/-- Store with no documents at all. -/
def emptyStore : Store :=
  { externals := [], actionLogs := [], usedBids := [] }

/-- Sample CSV row for the concrete evaluations below. -/
def sampleCSVRow : CSVRow :=
  { bid := "X1", name := "N", email := "n@fest", phone := "7",
    college := "AU", type := .participant, paymentStatus := "paid",
    events := ["e1"] }

/-- Sample CSV row whose creation the backend rejects in the concrete
evaluations below (modelled by okNonEmptyBid). -/
def badCSVRow : CSVRow :=
  { bid := "", name := "M", email := "m@fest", phone := "6",
    college := "AU", type := .participant, paymentStatus := "not paid",
    events := [] }

/-- Concrete acceptance oracle: the backend rejects exactly the rows with
an empty bid, for which the document reference constructor throws. -/
def okNonEmptyBid (row : CSVRow) : Bool := row.bid ≠ ""

/-- Concrete profile-fetch outcome used by the signIn evaluation. -/
def fetchMissing (_ : String) : FetchResult := .missing

/-- Constant random stream proposing the bid AAAA on every iteration. -/
def constR (_ : Nat) : Fin 34 := 0

/-- A parsed raw CSV row that has an ID, a name and a phone number but no
Email column at all. -/
def rawMissingEmail : RawCSVData :=
  { fields := [("ID", "1234"), ("Name", "John"), ("Mobile", "999")] }

/-- The store produced by a walk-in registration against the empty store
with the constant random stream: one fresh participant under the bid
AAAA. -/
def spotStore : Store :=
  { externals :=
      [("AAAA",
        { bid := "AAAA", name := "n", email := "e", phone := "p",
          college := "c", paymentStatus := "not paid", type := .onTheSpot,
          registrationDate := 0, gateIn := false, gateOut := false,
          checkIn := false, checkOut := false, insideCampus := false,
          events := [], lastTime := "", status := .notArrived })],
    actionLogs := [], usedBids := ["AAAA"] }

/-! ## Collection lemmas -/

theorem findDoc_setDocAt_self {α : Type} (l : List (String × α))
    (key : String) (v : α) : findDoc (setDocAt l key v) key = some v := by
  induction l with
  | nil => simp [setDocAt, findDoc]
  | cons hd tl ih =>
      obtain ⟨k, w⟩ := hd
      by_cases hk : k = key
      · simp [setDocAt, findDoc, hk]
      · simp [setDocAt, findDoc, hk, ih]

theorem findDoc_setMergeAt_self (l : List (String × External))
    (key : String) (u : ExternalUpdate) (e : External)
    (h : findDoc l key = some e) :
    findDoc (setMergeAt l key u) key = some (mergeUpdate e u) := by
  induction l with
  | nil => simp [findDoc] at h
  | cons hd tl ih =>
      obtain ⟨k, w⟩ := hd
      by_cases hk : k = key
      · simp only [findDoc, if_pos hk, Option.some.injEq] at h
        simp [setMergeAt, findDoc, hk, h]
      · simp only [findDoc, if_neg hk] at h
        simp [setMergeAt, findDoc, hk, ih h]

theorem mem_arrayUnion_self (l : List String) (x : String) :
    x ∈ arrayUnion l x := by
  unfold arrayUnion
  split
  · assumption
  · simp

theorem optGetD_absorb {α : Type} (o : Option α) (a : α) :
    o.getD (o.getD a) = o.getD a := by
  cases o <;> rfl

theorem mergeUpdate_idem (e : External) (u : ExternalUpdate) :
    mergeUpdate (mergeUpdate e u) u = mergeUpdate e u := by
  simp [mergeUpdate, optGetD_absorb]

/-! ## logAction lemmas -/

theorem logAction_logsFor (s : Store) (uid : String) (a : ActionType)
    (vol : User) (now : Nat) :
    logsFor (logAction s uid a vol now) uid = logsFor s uid + 1 := by
  simp [logAction, logsFor, List.filter_append]

theorem logAction_findDoc (s : Store) (uid : String) (a : ActionType)
    (vol : User) (now : Nat) (e : External)
    (h : findDoc s.externals uid = some e) :
    findDoc (logAction s uid a vol now).externals uid =
      some (mergeUpdate e (updateDataFor a)) := by
  simp only [logAction]
  exact findDoc_setMergeAt_self s.externals uid (updateDataFor a) e h

/-! ## Claims C1 to C5: the checkpoint-advance operation -/

/-- Claim C1 fails as stated at the terminal action: after a gate-out on
the checked-out sample participant, the gateOut flag of the stored record
is false, not true. -/
theorem c1_gateOut_flag_not_true :
    (findDoc (logAction sampleStore "B1" .gateOut sampleVolunteer 0).externals
        "B1").map (fun e => e.gateOut) = some false ∧
    logsFor (logAction sampleStore "B1" .gateOut sampleVolunteer 0) "B1" = 1 := by
  decide

/-- Claim C1 (amended): after any advance action performed via logAction on
an existing participant record, exactly one new action-log entry has been
appended for that participant; for the non-terminal actions gate-in,
check-in and check-out the checkpoint flag corresponding to the action is
true afterwards, while the terminal gate-out action leaves its
corresponding flag false, since it resets every flag. -/
theorem c1_advance_postcondition (s : Store) (uid : String) (vol : User)
    (now : Nat) (e : External) (a : ActionType)
    (h : findDoc s.externals uid = some e) :
    logsFor (logAction s uid a vol now) uid = logsFor s uid + 1 ∧
    (a = .gateIn ∨ a = .checkIn ∨ a = .checkOut →
      (findDoc (logAction s uid a vol now).externals uid).map
        (advanceFlag a) = some true) ∧
    (a = .gateOut →
      (findDoc (logAction s uid a vol now).externals uid).map
        (advanceFlag a) = some false) := by
  refine ⟨logAction_logsFor s uid a vol now, ?_, ?_⟩
  · intro ha
    rw [logAction_findDoc s uid a vol now e h]
    rcases ha with rfl | rfl | rfl <;>
      simp [advanceFlag, mergeUpdate, updateDataFor]
  · intro ha
    subst ha
    rw [logAction_findDoc s uid .gateOut vol now e h]
    simp [advanceFlag, mergeUpdate, updateDataFor]

theorem c1_advance_postcondition_witness :
    logsFor (logAction sampleStore "B1" .checkIn sampleVolunteer 0) "B1" =
      logsFor sampleStore "B1" + 1 ∧
    (ActionType.checkIn = .gateIn ∨ ActionType.checkIn = .checkIn ∨
        ActionType.checkIn = .checkOut →
      (findDoc (logAction sampleStore "B1" .checkIn sampleVolunteer 0).externals
          "B1").map (advanceFlag .checkIn) = some true) ∧
    (ActionType.checkIn = .gateOut →
      (findDoc (logAction sampleStore "B1" .checkIn sampleVolunteer 0).externals
          "B1").map (advanceFlag .checkIn) = some false) :=
  c1_advance_postcondition sampleStore "B1" sampleVolunteer 0 sampleExternal
    .checkIn (by decide)

/-- Claim C2: performing the terminal gate-out action via logAction on an
existing participant record resets all five checkpoint flags to false and
sets the payment status back to the string not paid. -/
theorem c2_gateOut_resets (s : Store) (uid : String) (vol : User)
    (now : Nat) (e : External)
    (h : findDoc s.externals uid = some e) :
    ∃ x, findDoc (logAction s uid .gateOut vol now).externals uid = some x ∧
      x.gateIn = false ∧ x.gateOut = false ∧ x.checkIn = false ∧
      x.checkOut = false ∧ x.insideCampus = false ∧
      x.paymentStatus = "not paid" := by
  refine ⟨mergeUpdate e (updateDataFor .gateOut),
    logAction_findDoc s uid .gateOut vol now e h, ?_⟩
  simp [mergeUpdate, updateDataFor]

theorem c2_gateOut_resets_witness :
    ∃ x, findDoc (logAction sampleStore "B1" .gateOut sampleVolunteer 1).externals
        "B1" = some x ∧
      x.gateIn = false ∧ x.gateOut = false ∧ x.checkIn = false ∧
      x.checkOut = false ∧ x.insideCampus = false ∧
      x.paymentStatus = "not paid" :=
  c2_gateOut_resets sampleStore "B1" sampleVolunteer 1 sampleExternal
    (by decide)

/-- Claim C3 fails as stated: the check-in action writes two checkpoint
flags, checkIn and insideCampus, on the fresh sample participant whose
flags were all false, so the update does not set exactly one additional
boolean and leave every other field unchanged. -/
theorem c3_checkIn_two_flags :
    (findDoc (logAction freshStore "B2" .checkIn sampleVolunteer 0).externals
        "B2").map (fun x => (x.checkIn, x.insideCampus)) =
      some (true, true) ∧
    freshExternal.checkIn = false ∧ freshExternal.insideCampus = false := by
  decide

/-- Claim C3 (amended): on an existing participant record, the gate-in and
check-out actions each set exactly one checkpoint flag to true and leave
every other field of the record unchanged, while the check-in action sets
the two flags checkIn and insideCampus to true and leaves every other
field unchanged. -/
theorem c3_update_frame (s : Store) (uid : String) (vol : User)
    (now : Nat) (e : External)
    (h : findDoc s.externals uid = some e) :
    findDoc (logAction s uid .gateIn vol now).externals uid =
      some { e with gateIn := true } ∧
    findDoc (logAction s uid .checkIn vol now).externals uid =
      some { e with checkIn := true, insideCampus := true } ∧
    findDoc (logAction s uid .checkOut vol now).externals uid =
      some { e with checkOut := true } := by
  refine ⟨?_, ?_, ?_⟩ <;>
    rw [logAction_findDoc s uid _ vol now e h] <;>
    simp [mergeUpdate, updateDataFor]

theorem c3_update_frame_witness :
    findDoc (logAction freshStore "B2" .gateIn sampleVolunteer 0).externals
      "B2" = some { freshExternal with gateIn := true } ∧
    findDoc (logAction freshStore "B2" .checkIn sampleVolunteer 0).externals
      "B2" = some { freshExternal with checkIn := true, insideCampus := true } ∧
    findDoc (logAction freshStore "B2" .checkOut sampleVolunteer 0).externals
      "B2" = some { freshExternal with checkOut := true } :=
  c3_update_frame freshStore "B2" sampleVolunteer 0 freshExternal (by decide)

/-- Claim C4: the update logAction writes to an existing participant record
is mergeUpdate with updateDataFor of the action, a value computed from the
action type alone; in particular, even when the checkpoint flag preceding
the action in the order gate-in, check-in, check-out, gate-out is not set,
the update is applied and the writes of the action land. -/
theorem c4_no_order_validation (s : Store) (uid : String) (vol : User)
    (now : Nat) (e : External) (a : ActionType)
    (h : findDoc s.externals uid = some e)
    (hclear : precedingFlagClear a e) :
    findDoc (logAction s uid a vol now).externals uid =
      some (mergeUpdate e (updateDataFor a)) ∧
    advanceApplied a (mergeUpdate e (updateDataFor a)) := by
  refine ⟨logAction_findDoc s uid a vol now e h, ?_⟩
  cases a <;> simp [advanceApplied, mergeUpdate, updateDataFor]

theorem c4_no_order_validation_witness :
    findDoc (logAction freshStore "B2" .checkOut sampleVolunteer 0).externals
      "B2" = some (mergeUpdate freshExternal (updateDataFor .checkOut)) ∧
    advanceApplied .checkOut
      (mergeUpdate freshExternal (updateDataFor .checkOut)) :=
  c4_no_order_validation freshStore "B2" sampleVolunteer 0 freshExternal
    .checkOut (by decide) (by decide)

/-- Claim C5: performing the same action twice in sequence via logAction on
an existing participant record appends two action-log entries for the
participant, and the flag and payment fields of the record after the
second application equal their values after the first. -/
theorem c5_double_action (s : Store) (uid : String) (vol : User)
    (n1 n2 : Nat) (e : External) (a : ActionType)
    (h : findDoc s.externals uid = some e) :
    logsFor (logAction (logAction s uid a vol n1) uid a vol n2) uid =
      logsFor s uid + 2 ∧
    ∃ x1 x2,
      findDoc (logAction s uid a vol n1).externals uid = some x1 ∧
      findDoc (logAction (logAction s uid a vol n1) uid a vol n2).externals
        uid = some x2 ∧
      (x2.gateIn, x2.gateOut, x2.checkIn, x2.checkOut, x2.insideCampus,
        x2.paymentStatus) =
      (x1.gateIn, x1.gateOut, x1.checkIn, x1.checkOut, x1.insideCampus,
        x1.paymentStatus) := by
  have h1 := logAction_findDoc s uid a vol n1 e h
  have h2 := logAction_findDoc (logAction s uid a vol n1) uid a vol n2 _ h1
  rw [mergeUpdate_idem] at h2
  refine ⟨?_, mergeUpdate e (updateDataFor a),
    mergeUpdate e (updateDataFor a), h1, h2, rfl⟩
  rw [logAction_logsFor, logAction_logsFor]

theorem c5_double_action_witness :
    logsFor (logAction (logAction sampleStore "B1" .gateIn sampleVolunteer 1)
        "B1" .gateIn sampleVolunteer 2) "B1" = logsFor sampleStore "B1" + 2 ∧
    ∃ x1 x2,
      findDoc (logAction sampleStore "B1" .gateIn sampleVolunteer 1).externals
        "B1" = some x1 ∧
      findDoc (logAction (logAction sampleStore "B1" .gateIn sampleVolunteer 1)
          "B1" .gateIn sampleVolunteer 2).externals "B1" = some x2 ∧
      (x2.gateIn, x2.gateOut, x2.checkIn, x2.checkOut, x2.insideCampus,
        x2.paymentStatus) =
      (x1.gateIn, x1.gateOut, x1.checkIn, x1.checkOut, x1.insideCampus,
        x1.paymentStatus) :=
  c5_double_action sampleStore "B1" sampleVolunteer 1 2 sampleExternal
    .gateIn (by decide)

/-! ## Claim C6: CSV batch upload -/

theorem uploadCSVData_snd (ok : CSVRow → Bool) (now : Nat)
    (rows : List CSVRow) :
    ∀ s : Store, (uploadCSVData ok s now rows).2 = (rows.filter ok).length := by
  induction rows with
  | nil => intro s; simp [uploadCSVData]
  | cons row rest ih =>
      intro s
      by_cases hok : ok row = true
      · simp [uploadCSVData, hok, List.filter_cons, ih]
      · simp [uploadCSVData, hok, List.filter_cons, ih]

/-- Claim C6: uploadCSVData attempts every row of the batch, never aborts
on a row failure, and returns exactly the number of rows the backend
accepted: the count equals the number of accepted rows over the whole
list, is at most the list length, and a rejected head row leaves the
processing of the remaining rows and their count unchanged. -/
theorem c6_uploadCSVData_count (ok : CSVRow → Bool) (s : Store) (now : Nat)
    (rows : List CSVRow) (bad : CSVRow) (rest : List CSVRow)
    (hbad : ok bad = false) :
    (uploadCSVData ok s now rows).2 = (rows.filter ok).length ∧
    (uploadCSVData ok s now rows).2 ≤ rows.length ∧
    (uploadCSVData ok s now (bad :: rest)).2 =
      (uploadCSVData ok s now rest).2 := by
  refine ⟨uploadCSVData_snd ok now rows s, ?_, ?_⟩
  · rw [uploadCSVData_snd ok now rows s]
    exact List.length_filter_le ok rows
  · simp [uploadCSVData, hbad]

theorem c6_uploadCSVData_count_witness :
    (uploadCSVData okNonEmptyBid emptyStore 0
        [sampleCSVRow, badCSVRow, sampleCSVRow]).2 =
      ([sampleCSVRow, badCSVRow, sampleCSVRow].filter okNonEmptyBid).length ∧
    (uploadCSVData okNonEmptyBid emptyStore 0
        [sampleCSVRow, badCSVRow, sampleCSVRow]).2 ≤
      [sampleCSVRow, badCSVRow, sampleCSVRow].length ∧
    (uploadCSVData okNonEmptyBid emptyStore 0
        (badCSVRow :: [sampleCSVRow])).2 =
      (uploadCSVData okNonEmptyBid emptyStore 0 [sampleCSVRow]).2 :=
  c6_uploadCSVData_count okNonEmptyBid emptyStore 0
    [sampleCSVRow, badCSVRow, sampleCSVRow] badCSVRow [sampleCSVRow]
    (by decide)

/-! ## Claim C9: signIn error messages -/

/-- Claim C9: whenever signIn fails, the error message is one of the five
static human-readable strings; no raw backend error message escapes, the
profile-not-found throw included. -/
theorem c9_signIn_static_messages (authRes : AuthResult)
    (fetch : String → FetchResult) (m : String)
    (h : signIn authRes fetch = .error m) : m ∈ signInMessages := by
  unfold signIn at h
  cases htry : signInTry authRes fetch with
  | ok u => rw [htry] at h; cases h
  | error e =>
      rw [htry] at h
      cases h
      cases e with
      | coded c =>
          simp only [signInCatch, signInMessages]
          split_ifs <;> simp
      | plain msg => simp [signInCatch, signInMessages]

theorem c9_signIn_static_messages_witness :
    signIn (.codedError "auth/wrong-password") fetchMissing =
      .error "Incorrect password." ∧
    "Incorrect password." ∈ signInMessages :=
  ⟨rfl, c9_signIn_static_messages (.codedError "auth/wrong-password")
    fetchMissing "Incorrect password." rfl⟩

/-! ## Claim C10: initial state of created participant records -/

/-- Claim C10: a participant record created by createExternal, as well as
one created by a completed onSpotRegistration, starts with all five
checkpoint flags false, status not arrived and an empty last-action
timestamp, and its identifier is recorded in the usedBids document. -/
theorem c10_creation_initial_state (s : Store) (row : CSVRow) (now : Nat)
    (s2 : Store) (r : Nat → Fin 34) (fuel : Nat)
    (nm em ph co : String) (now2 : Nat) (s3 : Store) (bid : String)
    (hreg : onSpotRegistration s2 r fuel nm em ph co now2 = some (s3, bid)) :
    (∃ x, findDoc (createExternal s row now).externals row.bid = some x ∧
       x.gateIn = false ∧ x.gateOut = false ∧ x.checkIn = false ∧
       x.checkOut = false ∧ x.insideCampus = false ∧
       x.status = .notArrived ∧ x.lastTime = "") ∧
    row.bid ∈ (createExternal s row now).usedBids ∧
    (∃ y, findDoc s3.externals bid = some y ∧
       y.gateIn = false ∧ y.gateOut = false ∧ y.checkIn = false ∧
       y.checkOut = false ∧ y.insideCampus = false ∧
       y.status = .notArrived ∧ y.lastTime = "") ∧
    bid ∈ s3.usedBids := by
  refine ⟨⟨_, findDoc_setDocAt_self s.externals row.bid _,
    rfl, rfl, rfl, rfl, rfl, rfl, rfl⟩,
    mem_arrayUnion_self s.usedBids row.bid, ?_⟩
  unfold onSpotRegistration at hreg
  cases hgen : generateUniqueBid s2.usedBids r fuel with
  | none => rw [hgen] at hreg; cases hreg
  | some b =>
      rw [hgen] at hreg
      simp only [Option.some.injEq, Prod.mk.injEq] at hreg
      obtain ⟨hs3, hbid⟩ := hreg
      subst hbid
      rw [← hs3]
      exact ⟨⟨_, findDoc_setDocAt_self s2.externals b _,
        rfl, rfl, rfl, rfl, rfl, rfl, rfl⟩,
        mem_arrayUnion_self s2.usedBids b⟩

theorem c10_creation_initial_state_witness :
    (∃ x, findDoc (createExternal emptyStore sampleCSVRow 0).externals
        sampleCSVRow.bid = some x ∧
       x.gateIn = false ∧ x.gateOut = false ∧ x.checkIn = false ∧
       x.checkOut = false ∧ x.insideCampus = false ∧
       x.status = .notArrived ∧ x.lastTime = "") ∧
    sampleCSVRow.bid ∈ (createExternal emptyStore sampleCSVRow 0).usedBids ∧
    (∃ y, findDoc spotStore.externals "AAAA" = some y ∧
       y.gateIn = false ∧ y.gateOut = false ∧ y.checkIn = false ∧
       y.checkOut = false ∧ y.insideCampus = false ∧
       y.status = .notArrived ∧ y.lastTime = "") ∧
    "AAAA" ∈ spotStore.usedBids :=
  c10_creation_initial_state emptyStore sampleCSVRow 0 emptyStore constR 1
    "n" "e" "p" "c" 0 spotStore "AAAA" (by decide)

/-! ## Claim C7: walk-in identifier generation -/

theorem charAt_mem_charset : ∀ i : Fin 34, charAt i ∈ charset.toList := by
  decide

theorem isCharsetBid_genBidAt (r : Nat → Fin 34) (k : Nat) :
    isCharsetBid (genBidAt r k) := by
  refine ⟨rfl, ?_⟩
  intro c hc
  have hc2 : c ∈ (List.range 4).map (fun j => charAt (r (4 * k + j))) := hc
  simp only [List.mem_map] at hc2
  obtain ⟨j, _, rfl⟩ := hc2
  exact charAt_mem_charset _

theorem generateUniqueBidLoop_finds (used : List String)
    (r : Nat → Fin 34) :
    ∀ d j : Nat, genBidAt r (j + d) ∉ used →
      ∃ b i, generateUniqueBidLoop used r (d + 1) j = some b ∧
        b = genBidAt r i ∧ b ∉ used := by
  intro d
  induction d with
  | zero =>
      intro j hj
      rw [Nat.add_zero] at hj
      refine ⟨genBidAt r j, j, ?_, rfl, hj⟩
      simp [generateUniqueBidLoop, hj]
  | succ d ih =>
      intro j hj
      by_cases hmem : genBidAt r j ∈ used
      · have hj2 : genBidAt r ((j + 1) + d) ∉ used := by
          have he : (j + 1) + d = j + (d + 1) := by omega
          rw [he]
          exact hj
        obtain ⟨b, i, hb, hbi, hbu⟩ := ih (j + 1) hj2
        refine ⟨b, i, ?_, hbi, hbu⟩
        simp only [generateUniqueBidLoop, if_pos hmem]
        exact hb
      · exact ⟨genBidAt r j, j, by simp [generateUniqueBidLoop, hmem], rfl,
          hmem⟩

theorem getD_indexOf {α : Type} [DecidableEq α] (l : List α) (c d : α)
    (h : c ∈ l) : l.getD (l.indexOf c) d = c := by
  rw [List.getD_eq_getElem l d (List.indexOf_lt_length.mpr h)]
  exact List.getElem_indexOf _

theorem charAt_indexOf (c : Char) (h : c ∈ charset.toList)
    (hlt : charset.toList.indexOf c < 34) :
    charAt ⟨charset.toList.indexOf c, hlt⟩ = c := by
  unfold charAt
  exact getD_indexOf charset.toList c 'A' h

theorem enumR_digit (k j d : Nat) (hj : j < 4) (hd : d < 34)
    (hdig : k / 34 ^ j % 34 = d) : enumR (4 * k + j) = ⟨d, hd⟩ := by
  unfold enumR
  apply Fin.ext
  simp only
  have h1 : (4 * k + j) / 4 = k := by omega
  have h2 : (4 * k + j) % 4 = j := by omega
  rw [h1, h2, hdig]

theorem genBidAt_enumR_digits (d0 d1 d2 d3 : Nat) (h0 : d0 < 34)
    (h1 : d1 < 34) (h2 : d2 < 34) (h3 : d3 < 34) :
    genBidAt enumR (d0 + 34 * d1 + 1156 * d2 + 39304 * d3) =
      String.mk [charAt ⟨d0, h0⟩, charAt ⟨d1, h1⟩, charAt ⟨d2, h2⟩,
        charAt ⟨d3, h3⟩] := by
  have e0 := enumR_digit (d0 + 34 * d1 + 1156 * d2 + 39304 * d3) 0 d0
    (by omega) h0 (by simp only [pow_zero, Nat.div_one]; omega)
  have e1 := enumR_digit (d0 + 34 * d1 + 1156 * d2 + 39304 * d3) 1 d1
    (by omega) h1 (by simp only [pow_one]; omega)
  have e2 := enumR_digit (d0 + 34 * d1 + 1156 * d2 + 39304 * d3) 2 d2
    (by omega) h2 (by norm_num; omega)
  have e3 := enumR_digit (d0 + 34 * d1 + 1156 * d2 + 39304 * d3) 3 d3
    (by omega) h3 (by norm_num; omega)
  unfold genBidAt
  congr 1
  show [charAt (enumR (4 * (d0 + 34 * d1 + 1156 * d2 + 39304 * d3) + 0)),
    charAt (enumR (4 * (d0 + 34 * d1 + 1156 * d2 + 39304 * d3) + 1)),
    charAt (enumR (4 * (d0 + 34 * d1 + 1156 * d2 + 39304 * d3) + 2)),
    charAt (enumR (4 * (d0 + 34 * d1 + 1156 * d2 + 39304 * d3) + 3))] = _
  rw [e0, e1, e2, e3]

theorem enumR_fair (b : String) (hb : isCharsetBid b) :
    ∃ k, genBidAt enumR k = b := by
  obtain ⟨hlen, hmem⟩ := hb
  obtain ⟨l⟩ := b
  have hl : l.length = 4 := hlen
  rcases l with _ | ⟨c0, l⟩
  · simp at hl
  rcases l with _ | ⟨c1, l⟩
  · simp at hl
  rcases l with _ | ⟨c2, l⟩
  · simp at hl
  rcases l with _ | ⟨c3, l⟩
  · simp at hl
  rcases l with _ | ⟨c4, l⟩
  · have hmem4 : ∀ c ∈ [c0, c1, c2, c3], c ∈ charset.toList := hmem
    have h0 := hmem4 c0 (by simp)
    have h1 := hmem4 c1 (by simp)
    have h2 := hmem4 c2 (by simp)
    have h3 := hmem4 c3 (by simp)
    have hlen34 : charset.toList.length = 34 := rfl
    have hlt0 : charset.toList.indexOf c0 < 34 := by
      rw [← hlen34]; exact List.indexOf_lt_length.mpr h0
    have hlt1 : charset.toList.indexOf c1 < 34 := by
      rw [← hlen34]; exact List.indexOf_lt_length.mpr h1
    have hlt2 : charset.toList.indexOf c2 < 34 := by
      rw [← hlen34]; exact List.indexOf_lt_length.mpr h2
    have hlt3 : charset.toList.indexOf c3 < 34 := by
      rw [← hlen34]; exact List.indexOf_lt_length.mpr h3
    refine ⟨charset.toList.indexOf c0 + 34 * charset.toList.indexOf c1 +
      1156 * charset.toList.indexOf c2 +
      39304 * charset.toList.indexOf c3, ?_⟩
    rw [genBidAt_enumR_digits _ _ _ _ hlt0 hlt1 hlt2 hlt3]
    rw [charAt_indexOf c0 h0 hlt0, charAt_indexOf c1 h1 hlt1,
      charAt_indexOf c2 h2 hlt2, charAt_indexOf c3 h3 hlt3]
  · simp only [List.length_cons] at hl
    omega

/-- Claim C7: under sequential execution, if the used-identifiers list does
not contain every 4-character identifier over the generator charset, and
the random stream is fair in the sense that it eventually proposes every
charset bid, then generateUniqueBid terminates with enough fuel and
returns a 4-character charset identifier that is not in the
used-identifiers list. -/
theorem c7_generateUniqueBid_unique (used : List String)
    (r : Nat → Fin 34)
    (hfair : ∀ b : String, isCharsetBid b → ∃ k, genBidAt r k = b)
    (hnotfull : ∃ b : String, isCharsetBid b ∧ b ∉ used) :
    ∃ fuel bid, generateUniqueBid used r fuel = some bid ∧
      isCharsetBid bid ∧ bid ∉ used := by
  obtain ⟨b, hb, hbu⟩ := hnotfull
  obtain ⟨k, hk⟩ := hfair b hb
  have h1 : genBidAt r (0 + k) ∉ used := by
    rw [Nat.zero_add, hk]
    exact hbu
  obtain ⟨bid, i, hloop, hbi, hbidu⟩ :=
    generateUniqueBidLoop_finds used r k 0 h1
  refine ⟨k + 1, bid, hloop, ?_, hbidu⟩
  rw [hbi]
  exact isCharsetBid_genBidAt r i

theorem c7_generateUniqueBid_unique_witness :
    ∃ fuel bid, generateUniqueBid ["AAAA"] enumR fuel = some bid ∧
      isCharsetBid bid ∧ bid ∉ ["AAAA"] :=
  c7_generateUniqueBid_unique ["AAAA"] enumR enumR_fair
    ⟨"BBBB", by decide, by decide⟩

/-! ## Claim C8: upload handler row filtering -/

/-- Claim C8 fails as stated: a raw CSV row missing the required Email
column entirely is not rejected by the upload handler; it survives the
filter and is mapped to an upload row with an empty email, as the
projection to identifier, name, email and phone of the handler output
shows. -/
theorem c8_missing_email_not_rejected :
    (handleUploadRows .participant [rawMissingEmail]).map
      (fun u => (u.bid, u.name, u.email, u.phone)) =
      [("1234", "John", "", "999")] := by
  decide

/-- Claim C8 (amended): the upload handler drops exactly the rows in which
every present value is empty; any row with some non-empty value is kept
and mapped with empty-string defaults even when a required field such as
Email is missing; and a row whose creation fails does not abort the
processing of the remaining rows of the batch. -/
theorem c8_filter_and_continue (t : ExternalType) (raws : List RawCSVData)
    (row : RawCSVData) (hkeep : keepRow row = true) (hrow : row ∈ raws)
    (ok : CSVRow → Bool) (s : Store) (now : Nat) (bad : CSVRow)
    (rest : List CSVRow) (hbad : ok bad = false) :
    (handleUploadRows t raws).length = (raws.filter keepRow).length ∧
    mapRow t row ∈ handleUploadRows t raws ∧
    (uploadCSVData ok s now (bad :: rest)).2 =
      (uploadCSVData ok s now rest).2 := by
  refine ⟨?_, ?_, ?_⟩
  · simp [handleUploadRows]
  · exact List.mem_map_of_mem (mapRow t) (List.mem_filter.mpr ⟨hrow, hkeep⟩)
  · simp [uploadCSVData, hbad]

theorem c8_filter_and_continue_witness :
    (handleUploadRows .participant [rawMissingEmail]).length =
      ([rawMissingEmail].filter keepRow).length ∧
    mapRow .participant rawMissingEmail ∈
      handleUploadRows .participant [rawMissingEmail] ∧
    (uploadCSVData okNonEmptyBid sampleStore 0
        (badCSVRow :: [sampleCSVRow])).2 =
      (uploadCSVData okNonEmptyBid sampleStore 0 [sampleCSVRow]).2 :=
  c8_filter_and_continue .participant [rawMissingEmail] rawMissingEmail
    (by decide) (by decide) okNonEmptyBid sampleStore 0 badCSVRow
    [sampleCSVRow] (by decide)

end Banjaara
